import Mathlib

/-!
# ForgeSphere — shallow embedding of the wallet core

This file embeds the deterministic multi-chain derivation engine, the
localStorage persistence layer, and the session-state handlers of the
ForgeSphere repository:

* `src/src/lib/wallet-derivation.ts` — `generateWalletFromMnemonic`
* `src/src/lib/wallet-storage.ts` — `loadWalletsFromStorage`,
  `saveWalletsToStorage`, `clearWalletStorage`
* `src/src/components/WalletGenerator.tsx` — the state-owning handlers
  `handleGenerateWallet`, `handleAddWallet`, `handleDeleteWallet`,
  `handleClearWallets`, and the hydration effect.

External cryptographic libraries (bip39, ed25519-hd-key, tweetnacl,
@solana/web3.js, bs58, ethers) are not part of the repository; they are
modelled as a bundle of deterministic, possibly-failing functions
(`CryptoPrims`).  All theorems about the repository's code quantify over
this bundle; a small concrete instance (`defaultPrims`) is used only to
evaluate theorems at concrete inputs.

JSON text stored in localStorage is modelled abstractly: a stored string
is either the `JSON.stringify` image of a value of the key's type
(`Stored.val`), or a string that is not parseable JSON (`Stored.junk`).
`JSON.parse` succeeds exactly on the former and throws on the latter;
a thrown exception is an `Except.error`.
-/

/-- A generated HD wallet (`Wallet` in `wallet-types.ts`). -/
structure Wallet where
  publicKey : String
  privateKey : String
  path : String
deriving DecidableEq, Repr

/-- The external cryptographic primitives used by `wallet-derivation.ts`,
as deterministic functions.  Fallible library calls (those that can throw)
return `Except String`, carrying the thrown message. -/
structure CryptoPrims where
  /-- `bip39.mnemonicToSeedSync(mnemonic)`: bytes of the BIP39 seed. -/
  mnemonicToSeedSync : String → Except String (List Nat)
  /-- `Buffer.prototype.toString("hex")` on a byte buffer. -/
  bufferToHex : List Nat → String
  /-- `ed25519-hd-key derivePath(path, seedHex).key`: the derived 32-byte key. -/
  derivePathKey : String → String → Except String (List Nat)
  /-- `nacl.sign.keyPair.fromSeed(seed).secretKey`. -/
  naclSecretKeyFromSeed : List Nat → Except String (List Nat)
  /-- `Keypair.fromSecretKey(sk).publicKey.toBase58()`. -/
  solanaPublicKeyBase58 : List Nat → Except String String
  /-- `bs58.encode(bytes)`. -/
  bs58encode : List Nat → String
  /-- `new ethers.Wallet(privateKeyHex).address`. -/
  ethersWalletAddress : String → Except String String
  /-- `bip39.validateMnemonic(mnemonic)`. -/
  validateMnemonic : String → Bool

/-- The two error classes of `wallet-derivation.ts`:
`UnsupportedPathTypeError` and `WalletDerivationError` (the latter carries
its `cause`). -/
inductive DerivationError where
  | unsupportedPathType (pathType : String)
  | derivationFailed (cause : String)
deriving DecidableEq, Repr

/-- The BIP44 path string built by `generateWalletFromMnemonic`:
the template literal `m/44'/{pathType}'/0'/{accountIndex}'`
(the apostrophes are written with their escape code `\x27`). -/
def bip44Path (pathType : String) (accountIndex : Nat) : String :=
  "m/44\x27/" ++ pathType ++ "\x27/0\x27/" ++ toString accountIndex ++ "\x27"

/-- `generateWalletFromMnemonic` from `wallet-derivation.ts`.

The TS function runs its whole body in a `try`; the `catch` rethrows
`UnsupportedPathTypeError` unchanged and wraps every other thrown error as
`WalletDerivationError` with the original error as `cause`.  Here each
fallible primitive call propagates as `DerivationError.derivationFailed`
with its cause, and the branch-miss on the path type is
`DerivationError.unsupportedPathType` — the same observable behaviour. -/
def generateWalletFromMnemonic (prims : CryptoPrims)
    (pathType : String) (mnemonic : String) (accountIndex : Nat) :
    Except DerivationError Wallet :=
  match prims.mnemonicToSeedSync mnemonic with
  | Except.error e => Except.error (DerivationError.derivationFailed e)
  | Except.ok seedBuffer =>
    let path := bip44Path pathType accountIndex
    match prims.derivePathKey path (prims.bufferToHex seedBuffer) with
    | Except.error e => Except.error (DerivationError.derivationFailed e)
    | Except.ok derivedSeed =>
      if pathType == "501" then
        match prims.naclSecretKeyFromSeed derivedSeed with
        | Except.error e => Except.error (DerivationError.derivationFailed e)
        | Except.ok secretKey =>
          match prims.solanaPublicKeyBase58 secretKey with
          | Except.error e => Except.error (DerivationError.derivationFailed e)
          | Except.ok pub =>
            Except.ok ⟨pub, prims.bs58encode secretKey, path⟩
      else if pathType == "60" then
        let privateKey := prims.bufferToHex derivedSeed
        match prims.ethersWalletAddress privateKey with
        | Except.error e => Except.error (DerivationError.derivationFailed e)
        | Except.ok addr => Except.ok ⟨addr, privateKey, path⟩
      else
        Except.error (DerivationError.unsupportedPathType pathType)

/-! ## Persistence layer (`wallet-storage.ts`) -/

/-- A string stored under one localStorage key, abstracted by whether it is
parseable JSON of the key's value type. -/
inductive Stored (α : Type) where
  | val : α → Stored α
  | junk : String → Stored α
deriving DecidableEq, Repr

/-- JavaScript truthiness of a stored string: `JSON.stringify` output is
never empty, and a junk string is falsy exactly when it is `""`. -/
def Stored.truthy {α : Type} : Stored α → Bool
  | Stored.val _ => true
  | Stored.junk s => !(s == "")

/-- `JSON.parse` on a stored string: returns the encoded value, or throws
(the junk string itself is the recorded cause). -/
def parseStored {α : Type} : Stored α → Except String α
  | Stored.val v => Except.ok v
  | Stored.junk s => Except.error s

/-- Truthiness of a `localStorage.getItem` result (`null` is falsy). -/
def truthyOpt {α : Type} : Option (Stored α) → Bool
  | none => false
  | some sv => sv.truthy

/-- The localStorage records under the three keys `wallets`, `mnemonics`,
`chain` (`STORAGE_KEYS` in `wallet-types.ts`); `none` means absent. -/
structure LocalStorage where
  wallets : Option (Stored (List Wallet))
  mnemonics : Option (Stored (List String))
  chain : Option (Stored String)
deriving DecidableEq, Repr

/-- `StoredWalletData` from `wallet-storage.ts`. -/
structure StoredWalletData where
  wallets : List Wallet
  mnemonics : List String
  chain : String
deriving DecidableEq, Repr

/-- `loadWalletsFromStorage`: if all three `getItem` results are truthy,
`JSON.parse` each (in source order: wallets, mnemonics, chain; a parse
throw propagates); otherwise return `null` (here `Except.ok none`). -/
def loadWalletsFromStorage (st : LocalStorage) :
    Except String (Option StoredWalletData) :=
  match st.wallets, st.mnemonics, st.chain with
  | some sw, some sm, some sc =>
    if sw.truthy && sm.truthy && sc.truthy then
      match parseStored sw with
      | Except.error e => Except.error e
      | Except.ok w =>
        match parseStored sm with
        | Except.error e => Except.error e
        | Except.ok m =>
          match parseStored sc with
          | Except.error e => Except.error e
          | Except.ok c => Except.ok (some ⟨w, m, c⟩)
    else Except.ok none
  | _, _, _ => Except.ok none

/-- `saveWalletsToStorage(wallets, mnemonics?, chain?)`: always rewrites the
`wallets` key; writes `mnemonics` only when the argument is supplied (a JS
array is always truthy); writes `chain` only when supplied and truthy (the
empty string is falsy, so `if (chain)` skips it). -/
def saveWalletsToStorage (wallets : List Wallet)
    (mnemonics : Option (List String)) (chain : Option String)
    (st : LocalStorage) : LocalStorage :=
  let st1 : LocalStorage := { st with wallets := some (Stored.val wallets) }
  let st2 : LocalStorage :=
    match mnemonics with
    | some m => { st1 with mnemonics := some (Stored.val m) }
    | none => st1
  match chain with
  | some c => if c == "" then st2 else { st2 with chain := some (Stored.val c) }
  | none => st2

/-- `clearWalletStorage`: removes the `wallets` and `mnemonics` records;
the `chain` record is not touched. -/
def clearWalletStorage (st : LocalStorage) : LocalStorage :=
  { st with wallets := none, mnemonics := none }

/-! ## Session controller (`WalletGenerator.tsx`) -/

/-- The React state owned by `WalletGenerator` that the wallet core reads
or writes (presentation-only state such as `showMnemonic` and `gridView`
is omitted — no handler's wallet logic depends on it). -/
structure SessionState where
  mnemonicWords : List String
  wallets : List Wallet
  chain : String
  mnemonicInput : String
  visiblePrivateKeys : List Bool
  visiblePhrases : List Bool
deriving DecidableEq, Repr

/-- The initial `useState` values of `WalletGenerator`. -/
def initialSession : SessionState :=
  { mnemonicWords := List.replicate 12 " "
    wallets := []
    chain := ""
    mnemonicInput := ""
    visiblePrivateKeys := []
    visiblePhrases := [] }

/-- In-memory session state together with the durable store. -/
structure World where
  session : SessionState
  storage : LocalStorage
deriving DecidableEq, Repr

/-- Outcome reported to the user by a handler (which toast fired). -/
inductive IntentResult where
  | ok
  | invalidMnemonic
  | unsupportedPathType (pathType : String)
  | derivationFailed (cause : String)
  | noMnemonic
deriving DecidableEq, Repr

/-- The hydration `useEffect` of `WalletGenerator` (runs once on mount):
on a non-null load it replaces mnemonic words, wallets, chain, and resets
both visibility arrays to all-`false`; on `null` it changes nothing; a
throw from `loadWalletsFromStorage` propagates. -/
def hydrate (w : World) : Except String World :=
  match loadWalletsFromStorage w.storage with
  | Except.error e => Except.error e
  | Except.ok none => Except.ok w
  | Except.ok (some d) =>
    Except.ok
      { w with session :=
        { w.session with
            mnemonicWords := d.mnemonics
            wallets := d.wallets
            visiblePrivateKeys := d.wallets.map (fun _ => false)
            visiblePhrases := d.wallets.map (fun _ => false)
            chain := d.chain } }

/-- Characters stripped by JavaScript `String.prototype.trim`. -/
def isJsSpace (c : Char) : Bool :=
  c = ' ' || c = '\t' || c = '\n' || c = '\r'

/-- JavaScript `String.prototype.trim`: strip whitespace from both ends. -/
def trimString (s : String) : String :=
  String.mk (((s.data.dropWhile isJsSpace).reverse.dropWhile isJsSpace).reverse)

/-- JavaScript `String.prototype.split(" ")` on the character list:
splits at every single space, keeping empty segments. -/
def splitSpaceChars : List Char → List (List Char)
  | [] => [[]]
  | c :: cs =>
    match splitSpaceChars cs with
    | [] => []
    | ws :: rest => if c = ' ' then [] :: ws :: rest else (c :: ws) :: rest

/-- JavaScript `mnemonic.split(" ")`. -/
def splitOnSpace (s : String) : List String :=
  (splitSpaceChars s.data).map (fun cs => String.mk cs)

/-- `wallets.filter((_, i) => i !== index)`: indexed filter keeping every
position other than `index`, counting positions from `d`. -/
def filterIdxNe {α : Type} (index : Nat) : Nat → List α → List α
  | _, [] => []
  | d, x :: xs =>
    if d = index then filterIdxNe index (d + 1) xs
    else x :: filterIdxNe index (d + 1) xs

/-- `handleGenerateWallet` (the `generateInitial` intent).  `fresh` stands
for the value `bip39.generateMnemonic()` would return, supplied as an
oracle since it is randomized.  Note the source sets `mnemonicWords`
*before* the `try` block around derivation. -/
def handleGenerateWallet (prims : CryptoPrims) (fresh : String)
    (w : World) : IntentResult × World :=
  let mnemonic0 := trimString w.session.mnemonicInput
  if mnemonic0 != "" && !(prims.validateMnemonic mnemonic0) then
    (IntentResult.invalidMnemonic, w)
  else
    let mnemonic := if mnemonic0 == "" then fresh else mnemonic0
    let words := splitOnSpace mnemonic
    let w1 : World := { w with session := { w.session with mnemonicWords := words } }
    match generateWalletFromMnemonic prims w1.session.chain mnemonic
        w1.session.wallets.length with
    | Except.ok wallet =>
      let updatedWallets := w1.session.wallets ++ [wallet]
      (IntentResult.ok,
        { session :=
            { w1.session with
                wallets := updatedWallets
                visiblePrivateKeys := w1.session.visiblePrivateKeys ++ [false]
                visiblePhrases := w1.session.visiblePhrases ++ [false] }
          storage :=
            saveWalletsToStorage updatedWallets (some words)
              (some w1.session.chain) w1.storage })
    | Except.error (DerivationError.unsupportedPathType p) =>
      (IntentResult.unsupportedPathType p, w1)
    | Except.error (DerivationError.derivationFailed c) =>
      (IntentResult.derivationFailed c, w1)

/-- `handleAddWallet` (the `addWallet` intent).  The guard
`!mnemonicWords || mnemonicWords.length === 0 || mnemonicWords[0] === " "`
reduces to the last two tests (a JS array is always truthy). -/
def handleAddWallet (prims : CryptoPrims) (w : World) :
    IntentResult × World :=
  let s := w.session
  if s.mnemonicWords.length == 0 || s.mnemonicWords.head? == some " " then
    (IntentResult.noMnemonic, w)
  else
    match generateWalletFromMnemonic prims s.chain
        (String.intercalate " " s.mnemonicWords) s.wallets.length with
    | Except.ok wallet =>
      let updatedWallets := s.wallets ++ [wallet]
      (IntentResult.ok,
        { session :=
            { s with
                wallets := updatedWallets
                visiblePrivateKeys := s.visiblePrivateKeys ++ [false]
                visiblePhrases := s.visiblePhrases ++ [false] }
          storage := saveWalletsToStorage updatedWallets none none w.storage })
    | Except.error (DerivationError.unsupportedPathType p) =>
      (IntentResult.unsupportedPathType p, w)
    | Except.error (DerivationError.derivationFailed c) =>
      (IntentResult.derivationFailed c, w)

/-- `handleDeleteWallet(index)`: indexed filter on wallets and both
visibility arrays, persisting only the wallet list. -/
def handleDeleteWallet (index : Nat) (w : World) : World :=
  let updatedWallets := filterIdxNe index 0 w.session.wallets
  { session :=
      { w.session with
          wallets := updatedWallets
          visiblePrivateKeys := filterIdxNe index 0 w.session.visiblePrivateKeys
          visiblePhrases := filterIdxNe index 0 w.session.visiblePhrases }
    storage := saveWalletsToStorage updatedWallets none none w.storage }

/-- `handleClearWallets` (the `clearAll` intent): clears storage (wallets
and mnemonics keys) and empties the in-memory collections; `chain` is not
reset, neither in memory nor in storage. -/
def handleClearWallets (w : World) : World :=
  { session :=
      { w.session with
          wallets := []
          mnemonicWords := []
          visiblePrivateKeys := []
          visiblePhrases := [] }
    storage := clearWalletStorage w.storage }

/-! ## Concrete primitive instances (for evaluating theorems at inputs) -/

/-- A small concrete, fully deterministic stand-in for the external crypto
libraries, used to evaluate the universally quantified theorems at
concrete inputs. -/
def defaultPrims : CryptoPrims :=
  { mnemonicToSeedSync := fun m => Except.ok [m.length]
    bufferToHex := fun bs => toString (bs.foldl (· + ·) 0)
    derivePathKey := fun path hex => Except.ok [path.length, hex.length]
    naclSecretKeyFromSeed := fun seed => Except.ok (0 :: seed)
    solanaPublicKeyBase58 := fun sk => Except.ok (toString sk.length)
    bs58encode := fun bs => toString (bs.foldl (· + ·) 7)
    ethersWalletAddress := fun hex => Except.ok ("0x" ++ hex)
    validateMnemonic := fun s =>
      decide ((splitOnSpace s).length % 3 = 0) && !(s == "") }

/-- `defaultPrims` with a path-derivation step that throws, as
`ed25519-hd-key`'s `derivePath` does on a path whose segments are not all
numeric (e.g. `m/44'/abc'/0'/0'` raises `Invalid derivation path`). -/
def failPrims : CryptoPrims :=
  { defaultPrims with
      derivePathKey := fun _ _ => Except.error "Invalid derivation path" }

/-! ## Concrete example values used to evaluate theorems at inputs -/

/-- Example wallet A. -/
def wA : Wallet := ⟨"pa", "ka", "da"⟩

/-- Example wallet B. -/
def wB : Wallet := ⟨"pb", "kb", "db"⟩

/-- Example wallet C. -/
def wC : Wallet := ⟨"pc", "kc", "dc"⟩

/-- A concrete session with three wallets and mixed visibility flags. -/
def exampleWorld3 : World :=
  ⟨⟨["alpha"], [wA, wB, wC], "60", "", [true, false, true], [false, true, false]⟩,
    ⟨some (Stored.val [wA, wB, wC]), some (Stored.val ["alpha"]), some (Stored.val "60")⟩⟩

/-- A concrete pre-generation state: chain selected as the unsupported
path type `"0"`, a raw input of twelve words in the input box, no wallets
yet, empty storage. -/
def preGenWorld : World :=
  ⟨⟨List.replicate 12 " ", [], "0", "a a a a a a a a a a a a", [], []⟩,
    ⟨none, none, none⟩⟩

/-- A storage state with all three keys present but the `wallets` record
not parseable as JSON. -/
def badParseStorage : LocalStorage :=
  ⟨some (Stored.junk "x"), some (Stored.val ["alpha"]), some (Stored.val "60")⟩

/-! ## Helper lemmas -/

theorem filterIdxNe_eq {α : Type} (index : Nat) (xs : List α) :
    ∀ d, filterIdxNe index d xs =
      if index < d then xs else xs.eraseIdx (index - d) := by
  induction xs with
  | nil => intro d; simp [filterIdxNe]
  | cons x xs ih =>
    intro d
    rcases Nat.lt_trichotomy index d with h | h | h
    · have hne : ¬ d = index := by omega
      simp [filterIdxNe, hne, ih (d + 1), h, Nat.lt_succ_of_lt h]
    · subst h
      simp [filterIdxNe, ih (index + 1), Nat.lt_succ_self, Nat.sub_self]
    · have hne : ¬ d = index := by omega
      have h1 : ¬ index < d := by omega
      have h2 : ¬ index < d + 1 := by omega
      have h3 : index - d = (index - (d + 1)) + 1 := by omega
      simp [filterIdxNe, hne, ih (d + 1), h1, h2, h3]

theorem filterIdxNe_zero {α : Type} (i : Nat) (xs : List α) :
    filterIdxNe i 0 xs = xs.eraseIdx i := by
  simp [filterIdxNe_eq i xs 0]

theorem generateWallet_ok_path (prims : CryptoPrims) (p m : String) (i : Nat)
    (w : Wallet) (h : generateWalletFromMnemonic prims p m i = Except.ok w) :
    w.path = bip44Path p i := by
  simp only [generateWalletFromMnemonic] at h
  repeat any_goals split at h
  all_goals try exact Except.noConfusion h
  all_goals (injection h with h; subst h; simp_all)

/-! ## Claim theorems -/

/-- C10: `clearAll` empties the in-memory wallet collection, mnemonic and
both visibility arrays and removes the persisted `wallets` and `mnemonics`
records, while the persisted `chain` record and the in-memory chain value
are both left unchanged. -/
theorem clearAll_resets_memory_keeps_chain (w : World) :
    (handleClearWallets w).session.wallets = [] ∧
    (handleClearWallets w).session.mnemonicWords = [] ∧
    (handleClearWallets w).session.visiblePrivateKeys = [] ∧
    (handleClearWallets w).session.visiblePhrases = [] ∧
    (handleClearWallets w).session.chain = w.session.chain ∧
    (handleClearWallets w).storage.wallets = none ∧
    (handleClearWallets w).storage.mnemonics = none ∧
    (handleClearWallets w).storage.chain = w.storage.chain := by
  simp [handleClearWallets, clearWalletStorage]

/-- C9: `deleteWallet(i)` removes exactly position `i` from the wallet
collection and from both visibility arrays (preserving order and content
of the rest — remaining wallet records, including their `path` strings,
are untouched), leaves the mnemonic and chain in memory unchanged, and
rewrites only the persisted `wallets` record: the `mnemonics` and `chain`
records keep their prior values. -/
theorem deleteWallet_erases_index_and_frames (w : World) (i : Nat)
    (_hi : i < w.session.wallets.length) :
    (handleDeleteWallet i w).session.wallets = w.session.wallets.eraseIdx i ∧
    (handleDeleteWallet i w).session.visiblePrivateKeys =
      w.session.visiblePrivateKeys.eraseIdx i ∧
    (handleDeleteWallet i w).session.visiblePhrases =
      w.session.visiblePhrases.eraseIdx i ∧
    (handleDeleteWallet i w).session.mnemonicWords = w.session.mnemonicWords ∧
    (handleDeleteWallet i w).session.chain = w.session.chain ∧
    (handleDeleteWallet i w).storage.wallets =
      some (Stored.val (w.session.wallets.eraseIdx i)) ∧
    (handleDeleteWallet i w).storage.mnemonics = w.storage.mnemonics ∧
    (handleDeleteWallet i w).storage.chain = w.storage.chain := by
  simp [handleDeleteWallet, saveWalletsToStorage, filterIdxNe_zero]

/-- Witness for C9 at a concrete three-wallet session, deleting index 1. -/
theorem deleteWallet_erases_index_witness :
    (handleDeleteWallet 1 exampleWorld3).session.wallets =
      exampleWorld3.session.wallets.eraseIdx 1 :=
  (deleteWallet_erases_index_and_frames exampleWorld3 1 (by decide)).1

/-- C3: the derivation engine is deterministic — two invocations with
identical `pathType`, `mnemonic` and `accountIndex` produce identical
results, and in particular byte-identical `publicKey`, `privateKey` and
`derivationPath` fields on success. -/
theorem derive_deterministic (prims : CryptoPrims) (p₁ p₂ m₁ m₂ : String)
    (i₁ i₂ : Nat) (hp : p₁ = p₂) (hm : m₁ = m₂) (hi : i₁ = i₂) :
    generateWalletFromMnemonic prims p₁ m₁ i₁ =
      generateWalletFromMnemonic prims p₂ m₂ i₂ ∧
    ∀ w₁ w₂, generateWalletFromMnemonic prims p₁ m₁ i₁ = Except.ok w₁ →
      generateWalletFromMnemonic prims p₂ m₂ i₂ = Except.ok w₂ →
      w₁.publicKey = w₂.publicKey ∧ w₁.privateKey = w₂.privateKey ∧
      w₁.path = w₂.path := by
  subst hp; subst hm; subst hi
  refine ⟨rfl, ?_⟩
  intro w₁ w₂ h₁ h₂
  rw [h₁] at h₂
  injection h₂ with h
  subst h
  exact ⟨rfl, rfl, rfl⟩

/-- Witness for C3 at a concrete invocation. -/
theorem derive_deterministic_witness :
    generateWalletFromMnemonic defaultPrims "60" "legal m" 0 =
      generateWalletFromMnemonic defaultPrims "60" "legal m" 0 :=
  (derive_deterministic defaultPrims "60" "60" "legal m" "legal m" 0 0
    rfl rfl rfl).1

theorem generateWallet_congr_derivePathKey (prims : CryptoPrims)
    (g : String → String → Except String (List Nat)) (p m : String) (i : Nat)
    (hg : ∀ hex, g (bip44Path p i) hex =
        prims.derivePathKey (bip44Path p i) hex) :
    generateWalletFromMnemonic { prims with derivePathKey := g } p m i =
      generateWalletFromMnemonic prims p m i := by
  simp only [generateWalletFromMnemonic]
  cases hseed : prims.mnemonicToSeedSync m <;> simp [hseed, hg]

/-- C8: whenever derivation succeeds, the returned wallet's path field is
exactly the BIP44 string `m/44'/{pathType}'/0'/{accountIndex}'` with all
four components hardened; moreover this very path is the one consumed by
the hierarchical derivation step — replacing the path-derivation primitive
by any function agreeing with it at exactly that path leaves the result
unchanged. -/
theorem derive_path_is_hardened_bip44 (prims : CryptoPrims)
    (pathType mnemonic : String) (i : Nat) (w : Wallet)
    (h : generateWalletFromMnemonic prims pathType mnemonic i = Except.ok w) :
    w.path = bip44Path pathType i ∧
    ∀ g : String → String → Except String (List Nat),
      (∀ hex, g (bip44Path pathType i) hex =
          prims.derivePathKey (bip44Path pathType i) hex) →
      generateWalletFromMnemonic { prims with derivePathKey := g }
        pathType mnemonic i = Except.ok w :=
  ⟨generateWallet_ok_path prims pathType mnemonic i w h,
    fun g hg =>
      (generateWallet_congr_derivePathKey prims g pathType mnemonic i hg).trans h⟩

/-- Witness for C8 at a concrete successful Solana-family derivation. -/
theorem derive_path_is_hardened_bip44_witness :
    (⟨"3", "24", "m/44\x27/501\x27/0\x27/0\x27"⟩ : Wallet).path =
      bip44Path "501" 0 :=
  (derive_path_is_hardened_bip44 defaultPrims "501" "a b" 0
    ⟨"3", "24", "m/44\x27/501\x27/0\x27/0\x27"⟩ (by rfl)).1

/-- C7 (amended): error kinds of the derivation engine.  Provided the
seed expansion and path-derivation steps succeed, an unsupported path type
fails with `UnsupportedPathType(pathType)`, never wrapped; conversely an
`UnsupportedPathType` outcome always names the requested path type and
only arises for unsupported ones; and for a supported path type every
failure is a wrapped `DerivationFailed(cause)`.  (Unconditionally, an
unsupported path type can instead surface as `DerivationFailed` when the
path-derivation primitive itself throws first — see the counterexample.) -/
theorem derive_error_kinds_distinguishable (prims : CryptoPrims)
    (p m : String) (i : Nat) :
    ((p ≠ "501" ∧ p ≠ "60") →
      ∀ seed, prims.mnemonicToSeedSync m = Except.ok seed →
      ∀ dk, prims.derivePathKey (bip44Path p i) (prims.bufferToHex seed) =
          Except.ok dk →
      generateWalletFromMnemonic prims p m i =
        Except.error (DerivationError.unsupportedPathType p)) ∧
    (∀ q, generateWalletFromMnemonic prims p m i =
        Except.error (DerivationError.unsupportedPathType q) →
      q = p ∧ p ≠ "501" ∧ p ≠ "60") ∧
    ((p = "501" ∨ p = "60") →
      ∀ e, generateWalletFromMnemonic prims p m i = Except.error e →
      ∃ cause, e = DerivationError.derivationFailed cause) := by
  refine ⟨?_, ?_, ?_⟩
  · rintro ⟨h1, h2⟩ seed hseed dk hdk
    simp [generateWalletFromMnemonic, hseed, hdk, h1, h2]
  · intro q h
    simp only [generateWalletFromMnemonic] at h
    repeat any_goals split at h
    all_goals simp_all
  · rintro (rfl | rfl) e h <;>
      (simp only [generateWalletFromMnemonic] at h
       repeat any_goals split at h
       all_goals try exact Except.noConfusion h
       all_goals simp_all
       all_goals exact ⟨_, h.symm⟩)

/-- Witness for C7 at a concrete unsupported path type with succeeding
seed and path-derivation steps. -/
theorem derive_error_kinds_witness :
    generateWalletFromMnemonic defaultPrims "0" "m" 0 =
      Except.error (DerivationError.unsupportedPathType "0") :=
  (derive_error_kinds_distinguishable defaultPrims "0" "m" 0).1
    ⟨by decide, by decide⟩ [1] (by rfl) [14, 1] (by rfl)

/-- C7 counterexample: with the path-derivation primitive throwing — as
`ed25519-hd-key`'s `derivePath` does on any path whose segments are not
all numeric, e.g. `m/44'/abc'/0'/0'` — an unsupported path type `"abc"`
is reported as the wrapped `DerivationFailed`, not as
`UnsupportedPathType("abc")`. -/
theorem derive_unsupported_counterexample :
    generateWalletFromMnemonic failPrims "abc" "m" 0 =
      Except.error
        (DerivationError.derivationFailed "Invalid derivation path") ∧
    generateWalletFromMnemonic failPrims "abc" "m" 0 ≠
      Except.error (DerivationError.unsupportedPathType "abc") := by
  constructor
  · rfl
  · intro h
    have h2 :
        (Except.error (DerivationError.derivationFailed
            "Invalid derivation path") : Except DerivationError Wallet) =
          Except.error (DerivationError.unsupportedPathType "abc") := by
      rw [← h]; rfl
    simp at h2

/-- C5: index alignment of the visibility flags with the wallet
collection is preserved by every mutating operation: a successful
`addWallet` from `N` wallets yields `N + 1` wallets and `N + 1` flags
with the last flag `false` (and even a failing `addWallet` keeps the
lengths equal); `deleteWallet(i)` removes position `i` from both
sequences (dropping one entry of each for a valid index); `clearAll`
empties both. -/
theorem mutators_preserve_visibility_alignment (prims : CryptoPrims)
    (w : World) (N : Nat)
    (hw : w.session.wallets.length = N)
    (hv : w.session.visiblePrivateKeys.length = N) :
    (∀ r w', handleAddWallet prims w = (r, w') →
      (r = IntentResult.ok →
        w'.session.wallets.length = N + 1 ∧
        w'.session.visiblePrivateKeys.length = N + 1 ∧
        w'.session.visiblePrivateKeys.getLast? = some false) ∧
      w'.session.visiblePrivateKeys.length = w'.session.wallets.length) ∧
    (∀ i,
      (handleDeleteWallet i w).session.wallets =
        w.session.wallets.eraseIdx i ∧
      (handleDeleteWallet i w).session.visiblePrivateKeys =
        w.session.visiblePrivateKeys.eraseIdx i ∧
      (i < N →
        (handleDeleteWallet i w).session.wallets.length = N - 1 ∧
        (handleDeleteWallet i w).session.visiblePrivateKeys.length = N - 1) ∧
      (handleDeleteWallet i w).session.visiblePrivateKeys.length =
        (handleDeleteWallet i w).session.wallets.length) ∧
    ((handleClearWallets w).session.wallets = [] ∧
      (handleClearWallets w).session.visiblePrivateKeys = []) := by
  refine ⟨?_, ?_, by simp [handleClearWallets]⟩
  · intro r w' h
    simp only [handleAddWallet] at h
    split at h
    · injection h with h1 h2
      subst h1; subst h2
      exact ⟨fun hr => absurd hr (by decide), hv.trans hw.symm⟩
    · split at h
      · injection h with h1 h2
        subst h1; subst h2
        refine ⟨fun _ => ⟨?_, ?_, ?_⟩, ?_⟩
        · simp [hw]
        · simp [hv]
        · simp [List.getLast?_concat]
        · simp [hw, hv]
      · injection h with h1 h2
        subst h1; subst h2
        exact ⟨fun hr => absurd hr (by simp), hv.trans hw.symm⟩
      · injection h with h1 h2
        subst h1; subst h2
        exact ⟨fun hr => absurd hr (by simp), hv.trans hw.symm⟩
  · intro i
    refine ⟨?_, ?_, fun hi => ⟨?_, ?_⟩, ?_⟩ <;>
      simp_all [handleDeleteWallet, filterIdxNe_zero, List.length_eraseIdx]

/-- Witness for C5: deleting index 0 in a concrete three-wallet session
removes position 0 from both parallel sequences. -/
theorem mutators_preserve_alignment_witness :
    (handleDeleteWallet 0 exampleWorld3).session.wallets =
      exampleWorld3.session.wallets.eraseIdx 0 ∧
    (handleDeleteWallet 0 exampleWorld3).session.visiblePrivateKeys =
      exampleWorld3.session.visiblePrivateKeys.eraseIdx 0 :=
  ⟨((mutators_preserve_visibility_alignment defaultPrims exampleWorld3 3
      (by decide) (by decide)).2.1 0).1,
    ((mutators_preserve_visibility_alignment defaultPrims exampleWorld3 3
      (by decide) (by decide)).2.1 0).2.1⟩

/-- C4: hydration round-trip.  Persisting a snapshot with all three
values supplied (wallet list, a 12-word mnemonic, a non-empty chain) and
hydrating a fresh session restores exactly that wallet list, word list,
and chain, with every restored wallet's visibility flag `false`. -/
theorem hydrate_roundtrip (ws : List Wallet) (words : List String)
    (c : String) (st : LocalStorage)
    (hc : c ≠ "") (_hlen : words.length = 12) :
    hydrate ⟨initialSession,
        saveWalletsToStorage ws (some words) (some c) st⟩ =
      Except.ok
        ⟨{ initialSession with
            mnemonicWords := words
            wallets := ws
            visiblePrivateKeys := ws.map (fun _ => false)
            visiblePhrases := ws.map (fun _ => false)
            chain := c },
          saveWalletsToStorage ws (some words) (some c) st⟩ := by
  have hc' : (c == "") = false := by simp [hc]
  simp [hydrate, saveWalletsToStorage, loadWalletsFromStorage, hc',
    Stored.truthy, parseStored, initialSession]

/-- Witness for C4 with three concrete wallets, a 12-word mnemonic, and
chain `"60"`, starting from empty storage. -/
theorem hydrate_roundtrip_witness :
    hydrate ⟨initialSession,
        saveWalletsToStorage [wA, wB, wC] (some (List.replicate 12 "x"))
          (some "60") ⟨none, none, none⟩⟩ =
      Except.ok
        ⟨{ initialSession with
            mnemonicWords := List.replicate 12 "x"
            wallets := [wA, wB, wC]
            visiblePrivateKeys := [wA, wB, wC].map (fun _ => false)
            visiblePhrases := [wA, wB, wC].map (fun _ => false)
            chain := "60" },
          saveWalletsToStorage [wA, wB, wC] (some (List.replicate 12 "x"))
            (some "60") ⟨none, none, none⟩⟩ :=
  hydrate_roundtrip [wA, wB, wC] (List.replicate 12 "x") "60"
    ⟨none, none, none⟩ (by decide) (by decide)

/-- C2 (amended): the load operation returns a populated snapshot exactly
when all three keys hold truthy parseable values; if any key is absent or
empty-valued, the snapshot is treated as absent and hydration leaves the
fully-empty initial state; but if all three keys are present and truthy
while one is unparseable, the load throws (the hydration effect
propagates the parse exception) instead of treating the snapshot as
absent. -/
theorem load_all_or_nothing (st : LocalStorage) :
    ((truthyOpt st.wallets && truthyOpt st.mnemonics &&
        truthyOpt st.chain) = false →
      loadWalletsFromStorage st = Except.ok none ∧
      hydrate ⟨initialSession, st⟩ = Except.ok ⟨initialSession, st⟩) ∧
    (∀ ws ms c, st.wallets = some (Stored.val ws) →
      st.mnemonics = some (Stored.val ms) →
      st.chain = some (Stored.val c) →
      loadWalletsFromStorage st = Except.ok (some ⟨ws, ms, c⟩) ∧
      hydrate ⟨initialSession, st⟩ =
        Except.ok
          ⟨{ initialSession with
              mnemonicWords := ms
              wallets := ws
              visiblePrivateKeys := ws.map (fun _ => false)
              visiblePhrases := ws.map (fun _ => false)
              chain := c }, st⟩) ∧
    ((truthyOpt st.wallets && truthyOpt st.mnemonics &&
        truthyOpt st.chain) = true →
      (∃ ws ms c, st.wallets = some (Stored.val ws) ∧
        st.mnemonics = some (Stored.val ms) ∧
        st.chain = some (Stored.val c)) ∨
      ∃ e, loadWalletsFromStorage st = Except.error e) := by
  obtain ⟨sw, sm, sc⟩ := st
  refine ⟨?_, ?_, ?_⟩
  · intro h
    rcases sw with _ | sw <;> rcases sm with _ | sm <;> rcases sc with _ | sc <;>
      simp_all [loadWalletsFromStorage, hydrate, truthyOpt] <;>
      cases hsw : sw.truthy <;> cases hsm : sm.truthy <;>
      cases hsc : sc.truthy <;>
      simp_all [loadWalletsFromStorage, hydrate, truthyOpt]
  · intro ws ms c hw hm hc
    subst hw; subst hm; subst hc
    simp [loadWalletsFromStorage, hydrate, truthyOpt, Stored.truthy,
      parseStored]
  · intro h
    rcases sw with _ | (ws | jw) <;> rcases sm with _ | (ms | jm) <;>
      rcases sc with _ | (c | jc) <;>
      simp_all [loadWalletsFromStorage, hydrate, truthyOpt, Stored.truthy,
        parseStored]

/-- Witness for C2 at two concrete storage states: a partial snapshot
(chain missing) hydrates to the fully-empty initial state, and a complete
well-formed snapshot loads populated. -/
theorem load_all_or_nothing_witness :
    (loadWalletsFromStorage
        ⟨some (Stored.val [wA]), some (Stored.val ["alpha"]), none⟩ =
      Except.ok none ∧
      hydrate ⟨initialSession,
          ⟨some (Stored.val [wA]), some (Stored.val ["alpha"]), none⟩⟩ =
        Except.ok ⟨initialSession,
          ⟨some (Stored.val [wA]), some (Stored.val ["alpha"]), none⟩⟩) ∧
    loadWalletsFromStorage
        ⟨some (Stored.val [wA]), some (Stored.val ["alpha"]),
          some (Stored.val "60")⟩ =
      Except.ok (some ⟨[wA], ["alpha"], "60"⟩) :=
  ⟨(load_all_or_nothing
      ⟨some (Stored.val [wA]), some (Stored.val ["alpha"]), none⟩).1
      (by decide),
    ((load_all_or_nothing
      ⟨some (Stored.val [wA]), some (Stored.val ["alpha"]),
        some (Stored.val "60")⟩).2.1 [wA] ["alpha"] "60" rfl rfl rfl).1⟩

/-- C2 counterexample: all three keys present but the `wallets` record
unparseable — the load neither returns a populated snapshot nor treats
the snapshot as absent: it throws, and hydration propagates the throw
instead of leaving the empty initial state. -/
theorem load_unparseable_counterexample :
    loadWalletsFromStorage badParseStorage = Except.error "x" ∧
    hydrate ⟨initialSession, badParseStorage⟩ = Except.error "x" :=
  ⟨rfl, rfl⟩

/-- C1 (amended): a failing `generateInitial` intent leaves the wallet
collection, both visibility arrays, the chain, the raw input, and all
persisted storage records unchanged; an `InvalidMnemonic` failure changes
nothing at all; but a failure at the derivation stage
(`UnsupportedPathType` or `DerivationFailed`) occurs after the active
mnemonic words have already been overwritten with the attempted phrase's
words, so the mnemonic part of the session state does change. -/
theorem generateInitial_failure_frame (prims : CryptoPrims)
    (fresh : String) (w : World) (r : IntentResult) (w' : World)
    (h : handleGenerateWallet prims fresh w = (r, w'))
    (hr : r ≠ IntentResult.ok) :
    w'.session.wallets = w.session.wallets ∧
    w'.session.visiblePrivateKeys = w.session.visiblePrivateKeys ∧
    w'.session.visiblePhrases = w.session.visiblePhrases ∧
    w'.session.chain = w.session.chain ∧
    w'.session.mnemonicInput = w.session.mnemonicInput ∧
    w'.storage = w.storage ∧
    (r = IntentResult.invalidMnemonic → w' = w) ∧
    (r ≠ IntentResult.invalidMnemonic →
      w'.session.mnemonicWords =
        splitOnSpace (if trimString w.session.mnemonicInput == "" then fresh
          else trimString w.session.mnemonicInput)) := by
  simp only [handleGenerateWallet] at h
  split at h
  · injection h with h1 h2
    subst h1; subst h2
    exact ⟨rfl, rfl, rfl, rfl, rfl, rfl, fun _ => rfl,
      fun hne => absurd rfl hne⟩
  · split at h
    · injection h with h1 h2
      subst h1
      exact absurd rfl hr
    · injection h with h1 h2
      subst h1; subst h2
      exact ⟨rfl, rfl, rfl, rfl, rfl, rfl, fun hinv => absurd hinv (by simp),
        fun _ => rfl⟩
    · injection h with h1 h2
      subst h1; subst h2
      exact ⟨rfl, rfl, rfl, rfl, rfl, rfl, fun hinv => absurd hinv (by simp),
        fun _ => rfl⟩

/-- Witness for C1's amended statement at a concrete failing intent. -/
theorem generateInitial_failure_frame_witness :
    (⟨⟨List.replicate 12 "a", [], "0", "a a a a a a a a a a a a", [], []⟩,
        ⟨none, none, none⟩⟩ : World).session.wallets =
      preGenWorld.session.wallets :=
  (generateInitial_failure_frame defaultPrims "x" preGenWorld
    (IntentResult.unsupportedPathType "0")
    ⟨⟨List.replicate 12 "a", [], "0", "a a a a a a a a a a a a", [], []⟩,
      ⟨none, none, none⟩⟩
    (by rfl) (by decide)).1

/-- C1 counterexample: a `generateInitial` invocation that fails at the
derivation stage (unsupported path type `"0"`, with a raw input passing
validation) nevertheless changes the session state — the active mnemonic
words have been overwritten with the attempted words. -/
theorem generateInitial_failure_counterexample :
    (handleGenerateWallet defaultPrims "x" preGenWorld).1 =
      IntentResult.unsupportedPathType "0" ∧
    (handleGenerateWallet defaultPrims "x" preGenWorld).2.session.mnemonicWords ≠
      preGenWorld.session.mnemonicWords := by
  constructor
  · rfl
  · decide

/-- C6: starting from a session whose three wallets were derived at
account indices 0, 1, 2 from the active mnemonic, `deleteWallet(2)`
followed by `addWallet()` re-derives account index 2 (the new collection
length): the intent succeeds, and the appended wallet is identical —
same public key, private key, and derivation path, whose final component
is 2 — to the wallet just deleted. -/
theorem deleteThenAdd_reproduces_deleted (prims : CryptoPrims)
    (c mi : String) (words : List String) (w0 w1 w2 : Wallet)
    (st : LocalStorage) (vp vq : List Bool)
    (hne : words ≠ [])
    (hhead : words.head? ≠ some " ")
    (_hd0 : generateWalletFromMnemonic prims c
        (String.intercalate " " words) 0 = Except.ok w0)
    (_hd1 : generateWalletFromMnemonic prims c
        (String.intercalate " " words) 1 = Except.ok w1)
    (hd2 : generateWalletFromMnemonic prims c
        (String.intercalate " " words) 2 = Except.ok w2) :
    (handleAddWallet prims (handleDeleteWallet 2
        ⟨⟨words, [w0, w1, w2], c, mi, vp, vq⟩, st⟩)).1 = IntentResult.ok ∧
    (handleAddWallet prims (handleDeleteWallet 2
        ⟨⟨words, [w0, w1, w2], c, mi, vp, vq⟩, st⟩)).2.session.wallets =
      [w0, w1, w2] ∧
    ((handleAddWallet prims (handleDeleteWallet 2
        ⟨⟨words, [w0, w1, w2], c, mi, vp, vq⟩, st⟩)).2.session.wallets).getLast?
      = some w2 ∧
    w2.path = bip44Path c 2 := by
  have h1 : (words.length == 0) = false := by
    simp [hne]
  have h2 : (words.head? == some " ") = false := by
    simp [hhead]
  refine ⟨?_, ?_, ?_,
    generateWallet_ok_path prims c (String.intercalate " " words) 2 w2 hd2⟩ <;>
    simp [handleAddWallet, handleDeleteWallet, filterIdxNe_zero,
      saveWalletsToStorage, h1, h2, hd2, List.getLast?_concat]

/-- Witness for C6 with a concrete two-word mnemonic and chain `"60"`. -/
theorem deleteThenAdd_witness :
    (handleAddWallet defaultPrims (handleDeleteWallet 2
        ⟨⟨["a", "b"],
          [⟨"0x16", "16", "m/44\x27/60\x27/0\x27/0\x27"⟩,
            ⟨"0x16", "16", "m/44\x27/60\x27/0\x27/1\x27"⟩,
            ⟨"0x16", "16", "m/44\x27/60\x27/0\x27/2\x27"⟩], "60", "",
          [false, false, false], [false, false, false]⟩,
          ⟨none, none, none⟩⟩)).1 = IntentResult.ok :=
  (deleteThenAdd_reproduces_deleted defaultPrims "60" "" ["a", "b"]
    ⟨"0x16", "16", "m/44\x27/60\x27/0\x27/0\x27"⟩
    ⟨"0x16", "16", "m/44\x27/60\x27/0\x27/1\x27"⟩
    ⟨"0x16", "16", "m/44\x27/60\x27/0\x27/2\x27"⟩
    ⟨none, none, none⟩ [false, false, false] [false, false, false]
    (by decide) (by decide) (by rfl) (by rfl) (by rfl)).1
